import Mathlib

/-!
Verification development for the post-processing effect-composition and
antialiasing subsystem exercised by the texture demo
(src/demo/src/demos/TextureDemo.js).

The demo wires a BlendFunction registry, a TextureEffect, a three-stage
SMAA antialiasing effect and an EffectPass (shader fusion) from the
library it imports.  The library code itself is not part of the visible
sources, so the registry, the fusion engine, the SMAA stages and the
asset-guarded constructors below are modelled from the specification;
the demo's own `load` wiring is translated directly from the source.

Channel values are rationals; blend formulas act per channel.
-/

namespace Postprocessing

/-- Modelled from the spec: the closed set of BlendFunction identifiers
(§3 data model).  The library source that enumerates them is not under
the visible sources. -/
inductive BlendFunction where
  | SKIP
  | NORMAL
  | ADD
  | ADD_SMOOTH
  | AVERAGE
  | COLOR_BURN
  | COLOR_DODGE
  | DARKEN
  | LIGHTEN
  | DIFFERENCE
  | EXCLUSION
  | MULTIPLY
  | NEGATION
  | OVERLAY
  | REFLECT
  | SCREEN
  | SOFT_LIGHT
  | SUBTRACT
  deriving DecidableEq

/-- Modelled from the spec: the per-channel two-operand formula `f` of each
identifier (§4.1).  `x` is the accumulated base channel, `y` the effect's
contribution channel.  Divisions (COLOR_BURN, COLOR_DODGE, REFLECT) are
guarded as required by §4.1 numerical stability. -/
def blend : BlendFunction → ℚ → ℚ → ℚ
  | .SKIP, x, _ => x
  | .NORMAL, _, y => y
  | .ADD, x, y => min (x + y) 1
  | .ADD_SMOOTH, x, y => x + y * (1 - x)
  | .AVERAGE, x, y => (x + y) / 2
  | .COLOR_BURN, x, y => if y ≤ 0 then 0 else max 0 (1 - (1 - x) / y)
  | .COLOR_DODGE, x, y => if 1 ≤ y then 1 else min 1 (x / (1 - y))
  | .DARKEN, x, y => min x y
  | .LIGHTEN, x, y => max x y
  | .DIFFERENCE, x, y => |x - y|
  | .EXCLUSION, x, y => x + y - 2 * x * y
  | .MULTIPLY, x, y => x * y
  | .NEGATION, x, y => 1 - |1 - x - y|
  | .OVERLAY, x, y => if x < 1 / 2 then 2 * x * y else 1 - 2 * (1 - x) * (1 - y)
  | .REFLECT, x, y => if 1 ≤ y then 1 else min 1 (x * x / (1 - y))
  | .SCREEN, x, y => x + y - x * y
  | .SOFT_LIGHT, x, y => (1 - 2 * y) * x * x + 2 * y * x
  | .SUBTRACT, x, y => max (x - y) 0

/-- Every blend formula maps unit-interval channels to the unit interval. -/
theorem blend_bounds (f : BlendFunction) (x y : ℚ)
    (hx0 : 0 ≤ x) (hx1 : x ≤ 1) (hy0 : 0 ≤ y) (hy1 : y ≤ 1) :
    0 ≤ blend f x y ∧ blend f x y ≤ 1 := by
  cases f with
  | SKIP => exact ⟨hx0, hx1⟩
  | NORMAL => exact ⟨hy0, hy1⟩
  | ADD =>
    exact ⟨le_min (by linarith) (by norm_num), min_le_right _ _⟩
  | ADD_SMOOTH =>
    simp only [blend]
    constructor <;> nlinarith
  | AVERAGE =>
    simp only [blend]
    constructor <;> [linarith; linarith]
  | COLOR_BURN =>
    simp only [blend]
    split_ifs with h
    · exact ⟨le_refl 0, by norm_num⟩
    · push_neg at h
      refine ⟨le_max_left _ _, max_le (by norm_num) ?step⟩
      have hdiv : 0 ≤ (1 - x) / y := div_nonneg (by linarith) h.le
      linarith
  | COLOR_DODGE =>
    simp only [blend]
    split_ifs with h
    · norm_num
    · push_neg at h
      have hpos : 0 < 1 - y := by linarith
      exact ⟨le_min (by norm_num) (div_nonneg hx0 hpos.le), min_le_left _ _⟩
  | DARKEN => exact ⟨le_min hx0 hy0, (min_le_left _ _).trans hx1⟩
  | LIGHTEN => exact ⟨hx0.trans (le_max_left _ _), max_le hx1 hy1⟩
  | DIFFERENCE =>
    exact ⟨abs_nonneg _, abs_le.mpr ⟨by linarith, by linarith⟩⟩
  | EXCLUSION =>
    simp only [blend]
    constructor <;> nlinarith
  | MULTIPLY =>
    simp only [blend]
    exact ⟨mul_nonneg hx0 hy0, by nlinarith⟩
  | NEGATION =>
    simp only [blend]
    have habs : |1 - x - y| ≤ 1 := abs_le.mpr ⟨by linarith, by linarith⟩
    have hnn : 0 ≤ |1 - x - y| := abs_nonneg _
    constructor <;> [linarith; linarith]
  | OVERLAY =>
    simp only [blend]
    split_ifs with h
    · constructor <;> nlinarith
    · push_neg at h
      constructor <;> nlinarith
  | REFLECT =>
    simp only [blend]
    split_ifs with h
    · norm_num
    · push_neg at h
      have hpos : 0 < 1 - y := by linarith
      exact ⟨le_min (by norm_num) (div_nonneg (mul_nonneg hx0 hx0) hpos.le),
        min_le_left _ _⟩
  | SCREEN =>
    simp only [blend]
    constructor <;> nlinarith
  | SOFT_LIGHT =>
    simp only [blend]
    have h1 : 0 ≤ x * y * (1 - x) :=
      mul_nonneg (mul_nonneg hx0 hy0) (by linarith)
    have h2 : 0 ≤ x * (1 - x) * (1 - y) :=
      mul_nonneg (mul_nonneg hx0 (by linarith)) (by linarith)
    constructor <;>
      nlinarith [mul_self_nonneg x, mul_self_nonneg (1 - x)]
  | SUBTRACT =>
    exact ⟨le_max_right _ _, max_le (by linarith) (by norm_num)⟩

/-- Modelled from the spec: error taxonomy of §7 (the library error types are
not under the visible sources). -/
inductive PipelineError where
  | unsupportedBlendFunction
  | incompatibleDedicatedPass
  | programLinkError
  | missingAssetError
  deriving DecidableEq

/-- Modelled from the spec: the registry table of the closed BlendFunction
set, in enumeration order (the demo menu passes blend modes as numbers). -/
def blendFunctionTable : List BlendFunction :=
  [.SKIP, .NORMAL, .ADD, .ADD_SMOOTH, .AVERAGE, .COLOR_BURN, .COLOR_DODGE,
   .DARKEN, .LIGHTEN, .DIFFERENCE, .EXCLUSION, .MULTIPLY, .NEGATION,
   .OVERLAY, .REFLECT, .SCREEN, .SOFT_LIGHT, .SUBTRACT]

/-- Numeric identifier lookup into the registry table. -/
def ofId (id : ℕ) : Option BlendFunction :=
  blendFunctionTable[id]?

/-- Modelled from the spec: `resolve(id) -> formula` of §4.1; the returned
identifier selects its formula through `blend`.  Unknown identifiers fail
with `UnsupportedBlendFunction`. -/
def resolve (id : ℕ) : Except PipelineError BlendFunction :=
  match ofId id with
  | some f => .ok f
  | none => .error .unsupportedBlendFunction

/-- Modelled from the spec: an effect's blend mode (identifier + opacity
scalar), as mutated by the demo menu through `setBlendFunction`. -/
structure BlendMode where
  blendFunction : ℕ
  opacity : ℚ
  deriving DecidableEq

/-- Modelled from the spec: `setBlendFunction` accepts only identifiers of
the closed set; anything else is a fatal setup error. -/
def setBlendFunction (bm : BlendMode) (id : ℕ) : Except PipelineError BlendMode :=
  match resolve id with
  | .ok _ => .ok { bm with blendFunction := id }
  | .error e => .error e

/-- Modelled from the spec: buffer bindings an effect may declare (§4.2),
plus the result buffer through which a dedicated multi-pass effect feeds a
downstream pass (§4.5). -/
inductive BufferInput where
  | color
  | depth
  | velocity
  | resultBuffer (name : String)
  deriving DecidableEq

/-- Modelled from the spec: a fusable effect descriptor (§4.2): immutable
shader logic and declared inputs, plus the mutable uniform `opacity` and the
abstracted per-pixel `contribution` its shader computes. -/
structure FusableEffect where
  name : String
  shaderBody : String
  requiredInputs : List BufferInput
  blendFunction : BlendFunction
  opacity : ℚ
  contribution : ℚ
  deriving DecidableEq

/-- Modelled from the spec (§9 design note): effects are either fusable
fragments or dedicated multi-pass sub-pipelines. -/
inductive Effect where
  | fusable (e : FusableEffect)
  | multiPass (name : String) (subPasses : List String)
  deriving DecidableEq

/-- Modelled from the spec: fusion namespaces each effect's shader body by a
unique per-effect tag (§4.3 step 2). -/
def namespacedBody (e : FusableEffect) : String :=
  e.name ++ "_" ++ e.shaderBody

/-- Shader source chunks an effect contributes to a fused program: fusable
effects contribute their namespaced body, dedicated multi-pass effects
contribute nothing (§4.5). -/
def Effect.sourceChunks : Effect → List String
  | .fusable e => [namespacedBody e]
  | .multiPass _ _ => []

/-- Buffer inputs an effect makes the fused program declare: a fusable
effect its required inputs, a multi-pass effect only its result buffer. -/
def Effect.declaredInputs : Effect → List BufferInput
  | .fusable e => e.requiredInputs
  | .multiPass n _ => [.resultBuffer n]

/-- Modelled from the spec: concatenated fused fragment source, in list
order (§4.3 step 2). -/
def fusedSource (effects : List Effect) : List String :=
  (effects.map Effect.sourceChunks).flatten

/-- Modelled from the spec: union of the declared inputs (§4.3 step 1). -/
def fusedInputs (effects : List Effect) : List BufferInput :=
  ((effects.map Effect.declaredInputs).flatten).dedup

/-- A fused program: merged source plus declared buffer bindings. -/
structure CompiledProgram where
  source : List String
  inputs : List BufferInput
  deriving DecidableEq

/-- Modelled from the spec: `fuse` of §4.3. -/
def fuse (effects : List Effect) : CompiledProgram :=
  { source := fusedSource effects, inputs := fusedInputs effects }

/-- Modelled from the spec: one step of the color accumulation fold
(§4.1, §4.3 steps 3-4): `result = lerp(base, f(base, contribution),
opacity)`; SKIP effects and multi-pass effects leave the accumulator
untouched. -/
def blendStep (acc : ℚ) (e : Effect) : ℚ :=
  match e with
  | .fusable f =>
    if f.blendFunction = .SKIP then acc
    else acc + f.opacity * (blend f.blendFunction acc f.contribution - acc)
  | .multiPass _ _ => acc

/-- Modelled from the spec: the accumulation fold over the effect list, in
caller-declared order (§4.3 step 3). -/
def accumulate (input : ℚ) (effects : List Effect) : ℚ :=
  effects.foldl blendStep input

/-- Uniform update path: set the opacity uniform of one effect without
touching its static shader descriptor. -/
def setOpacity (e : Effect) (v : ℚ) : Effect :=
  match e with
  | .fusable f => .fusable { f with opacity := v }
  | .multiPass n s => .multiPass n s

/-- Update the opacity uniform of the i-th effect of a pass's list. -/
def updateOpacityAt : List Effect → ℕ → ℚ → List Effect
  | [], _, _ => []
  | e :: rest, 0, v => setOpacity e v :: rest
  | e :: rest, n + 1, v => e :: updateOpacityAt rest n v

/-- The static part of an effect's descriptor: everything shader fusion
reads (source chunks and declared inputs), excluding uniform values. -/
def staticDescriptor (e : Effect) : List String × List BufferInput :=
  (e.sourceChunks, e.declaredInputs)

/-- An EffectPass: the fused program and the ordered effect list that
produced it (§4.4); the program is computed once at construction. -/
structure EffectPass where
  effects : List Effect
  program : CompiledProgram
  deriving DecidableEq

/-- EffectPass construction fuses the declared effect group. -/
def mkEffectPass (effects : List Effect) : EffectPass :=
  { effects := effects, program := fuse effects }

/-- Modelled from the spec: SMAA quality presets (§4.5), in escalation
order LOW, MEDIUM, HIGH, ULTRA. -/
inductive SMAAPreset where
  | LOW
  | MEDIUM
  | HIGH
  | ULTRA
  deriving DecidableEq

/-- Escalation rank of a preset. -/
def presetRank : SMAAPreset → ℕ
  | .LOW => 0
  | .MEDIUM => 1
  | .HIGH => 2
  | .ULTRA => 3

/-- Modelled from the spec: the maximum search distance the blending-weight
stage uses under each preset; higher presets search further (§4.5). -/
def searchDistance : SMAAPreset → ℕ
  | .LOW => 4
  | .MEDIUM => 8
  | .HIGH => 16
  | .ULTRA => 32

/-- Modelled from the spec: edge-detection mode of the first SMAA stage. -/
inductive EdgeDetectionMode where
  | DEPTH
  | LUMA
  | COLOR
  deriving DecidableEq

/-- A single-channel image plane (luma or depth), indexed by pixel. -/
abbrev Image := ℕ → ℕ → ℚ

/-- Modelled from the spec: SMAA stage 1, edge detection — per-pixel
discontinuities against a threshold, giving a 2-channel edge mask. -/
def edgeDetect (img : Image) (threshold : ℚ) (x y : ℕ) : ℚ × ℚ :=
  (if threshold < |img x y - img (x + 1) y| then 1 else 0,
   if threshold < |img x y - img x (y + 1)| then 1 else 0)

/-- The two precomputed SMAA lookup tables, read-only after load. -/
structure LookupTextures where
  search : ℕ → ℕ → ℚ
  area : ℕ → ℕ → ℚ

/-- Length of the run of consecutive edge pixels to the right, capped by
the configured maximum search distance. -/
def searchSpan (edges : ℕ → ℕ → ℚ × ℚ) : ℕ → ℕ → ℕ → ℕ
  | 0, _, _ => 0
  | d + 1, x, y =>
    if (edges (x + 1) y).1 = 0 then 0 else searchSpan edges d (x + 1) y + 1

/-- Modelled from the spec: SMAA stage 2, blending-weight calculation —
consumes the edge mask and the two lookup textures, searching up to the
configured distance; a pixel with no edge gets zero weights. -/
def blendingWeights (edges : ℕ → ℕ → ℚ × ℚ) (lut : LookupTextures)
    (dist : ℕ) (x y : ℕ) : ℚ × ℚ × ℚ × ℚ :=
  let e := edges x y
  if e = (0, 0) then (0, 0, 0, 0)
  else
    (e.1 * lut.area (searchSpan edges dist x y) 0,
     e.1 * lut.search (searchSpan edges dist x y) 0,
     e.2 * lut.area 0 (searchSpan edges dist x y),
     e.2 * lut.search 0 (searchSpan edges dist x y))

/-- Modelled from the spec: SMAA stage 3, neighborhood blending — blends a
pixel with its 4 directional neighbors, weighted by the computed
coefficients. -/
def neighborhoodBlend (img : Image) (w : ℕ → ℕ → ℚ × ℚ × ℚ × ℚ)
    (x y : ℕ) : ℚ :=
  let q := w x y
  (1 - (q.1 + q.2.1 + q.2.2.1 + q.2.2.2)) * img x y +
    q.1 * img (x + 1) y + q.2.1 * img (x - 1) y +
    q.2.2.1 * img x (y + 1) + q.2.2.2 * img x (y - 1)

/-- The three ordered SMAA sub-passes (§4.5). -/
def smaaSubPassNames : List String :=
  ["edge detection", "blending weight calculation", "neighborhood blending"]

/-- The demo's SMAA effect, as an Effect value: a dedicated three-stage
multi-pass sub-pipeline. -/
def smaaEffectDemo : Effect :=
  Effect.multiPass "SMAA" smaaSubPassNames

/-- A decoded texture asset, identified by its source url. -/
structure Texture where
  url : String
  deriving DecidableEq

/-- The demo's asset map: keyed textures. -/
abbrev Assets := List (String × Texture)

/-- Asset lookup by key. -/
def getAsset (assets : Assets) (key : String) : Option Texture :=
  (assets.find? (fun p => p.1 == key)).map Prod.snd

/-- Modelled from the spec: SMAAEffect construction requires the two lookup
textures; a missing one is a `MissingAssetError` for this effect (§6). -/
def mkSMAAEffect (search area : Option Texture) (_preset : SMAAPreset)
    (_mode : EdgeDetectionMode) : Except PipelineError Effect :=
  match search, area with
  | some _, some _ => .ok (Effect.multiPass "SMAA" smaaSubPassNames)
  | _, _ => .error .missingAssetError

/-- Modelled from the spec: TextureEffect construction requires its bound
texture. -/
def mkTextureEffect (texture : Option Texture) (bf : BlendFunction) :
    Except PipelineError Effect :=
  match texture with
  | some t =>
    .ok (Effect.fusable ⟨"TextureEffect", "sample " ++ t.url, [.color], bf, 1, 0⟩)
  | none => .error .missingAssetError

/-- The demo's effect construction (initialize, lines 140-152): the SMAA
effect from the two lookup textures and the texture effect from the
scratches texture with COLOR_DODGE; each constructed independently. -/
def initPipelineEffects (assets : Assets) : List (Except PipelineError Effect) :=
  [mkSMAAEffect (getAsset assets "smaa-search") (getAsset assets "smaa-area")
      SMAAPreset.HIGH EdgeDetectionMode.DEPTH,
   mkTextureEffect (getAsset assets "scratches-color") BlendFunction.COLOR_DODGE]

/-- The asset key under which the Sponza scene is stored. -/
def sponzaTag : String := "sponza"

/-- The asset keys the demo's load starts fetching (Sponza scene, scratches
texture, SMAA search and area lookup textures). -/
def loadKeys : List String :=
  [sponzaTag, "scratches-color", "smaa-search", "smaa-area"]

/-- The per-asset error log line installed on the loading manager
(load, line 69): logged per url, non-fatal. -/
def onErrorLog (url : String) : String := "Failed to load " ++ url

/-- The effect of the loader callbacks that run during loading: each
completed load inserts its texture under its key (load, lines 71-86). -/
def runLoaderCallbacks (assets : Assets) : Assets :=
  (sponzaTag, ⟨"sponza-scene"⟩) ::
    ("scratches-color", ⟨"textures/scratches.jpg"⟩) ::
    ("smaa-search", ⟨"smaa-search-image"⟩) ::
    ("smaa-area", ⟨"smaa-area-image"⟩) :: assets

/-- Outcome of a call to the demo's `load`: which asset loads it initiated,
how its promise resolves (`some d` = d milliseconds after the loading
manager reports completion, `none` = immediately), and the asset map at
resolution time. -/
structure LoadAction where
  initiated : List String
  resolveDelayAfterLoad : Option ℕ
  assetsAtResolve : Assets
  deriving DecidableEq

/-- Shallow embedding of the demo's `load` (lines 63-94): an empty asset
map starts all loads and schedules resolution 250ms after the manager's
onLoad fires; a non-empty map resolves immediately without loading. -/
def load (assets : Assets) : LoadAction :=
  if assets.length = 0 then
    { initiated := loadKeys,
      resolveDelayAfterLoad := some 250,
      assetsAtResolve := runLoaderCallbacks assets }
  else
    { initiated := [],
      resolveDelayAfterLoad := none,
      assetsAtResolve := assets }

/-- The demo's texture effect value: scratches texture blended with
COLOR_DODGE (initialize, lines 149-152). -/
def textureEffectDemo : Effect :=
  Effect.fusable
    ⟨"TextureEffect", "sample textures/scratches.jpg", [BufferInput.color],
      BlendFunction.COLOR_DODGE, 1, 0⟩

/-- The demo's EffectPass effect group (initialize, line 154): the SMAA
effect followed by the texture effect. -/
def demoPassEffects : List Effect := [smaaEffectDemo, textureEffectDemo]

/-! ### Claim theorems -/

/-- C1: a dedicated multi-pass effect (the SMAA effect in particular)
contributes no shader source to the fused program of any EffectPass whose
effect list contains it — the fused source is that of the remaining
effects — and it participates only through its result buffer, which the
fused program declares among its inputs.  Concretely, the demo pass
(SMAA + texture effect) fuses to the same source as the texture effect
alone. -/
theorem smaa_participates_only_via_result_buffer
    (pre post : List Effect) (name : String) (subs : List String) :
    fusedSource (pre ++ Effect.multiPass name subs :: post) =
      fusedSource (pre ++ post) ∧
    BufferInput.resultBuffer name ∈
      fusedInputs (pre ++ Effect.multiPass name subs :: post) ∧
    smaaEffectDemo.sourceChunks = [] ∧
    fusedSource demoPassEffects = fusedSource [textureEffectDemo] := by
  refine ⟨?src, ?mem, rfl, rfl⟩
  case src =>
    simp [fusedSource, Effect.sourceChunks]
  case mem =>
    have hmem : Effect.multiPass name subs ∈
        pre ++ Effect.multiPass name subs :: post := by simp
    simp only [fusedInputs, List.mem_dedup, List.mem_flatten]
    exact ⟨Effect.declaredInputs (Effect.multiPass name subs),
      List.mem_map_of_mem Effect.declaredInputs hmem, by
        simp [Effect.declaredInputs]⟩

/-- A SKIP-blended effect in the middle of a pass's effect list leaves the
color accumulation fold unchanged. -/
theorem accumulate_skip_removable (input : ℚ) (pre post : List Effect)
    (e : FusableEffect) (hskip : e.blendFunction = BlendFunction.SKIP) :
    accumulate input (pre ++ Effect.fusable e :: post) =
      accumulate input (pre ++ post) := by
  unfold accumulate
  rw [List.foldl_append, List.foldl_append, List.foldl_cons]
  have hstep : ∀ acc, blendStep acc (Effect.fusable e) = acc := by
    intro acc
    simp [blendStep, hskip]
  rw [hstep]

/-- C2: every formula of the closed BlendFunction set maps unit-interval
channels to the unit interval, and an effect whose blend function is SKIP
is excluded from the color accumulation fold (inserting it anywhere changes
nothing) even though its namespaced shader body is still part of the fused
source. -/
theorem blend_bounded_and_skip_excluded
    (f : BlendFunction) (x y : ℚ)
    (hx0 : 0 ≤ x) (hx1 : x ≤ 1) (hy0 : 0 ≤ y) (hy1 : y ≤ 1)
    (input : ℚ) (pre post : List Effect) (e : FusableEffect)
    (hskip : e.blendFunction = BlendFunction.SKIP) :
    (0 ≤ blend f x y ∧ blend f x y ≤ 1) ∧
    accumulate input (pre ++ Effect.fusable e :: post) =
      accumulate input (pre ++ post) ∧
    fusedSource (pre ++ Effect.fusable e :: post) =
      fusedSource pre ++ namespacedBody e :: fusedSource post := by
  refine ⟨blend_bounds f x y hx0 hx1 hy0 hy1,
    accumulate_skip_removable input pre post e hskip, ?_⟩
  simp [fusedSource, Effect.sourceChunks]

/-- A mask-style effect with SKIP blend, for concrete evaluation. -/
def skipMaskEffect : FusableEffect :=
  ⟨"Mask", "mask logic", [BufferInput.color], BlendFunction.SKIP, 1, 1 / 2⟩

/-- Concrete instance of the C2 theorem. -/
theorem blend_bounded_and_skip_excluded_witness :
    (0 ≤ blend BlendFunction.COLOR_DODGE (1 / 2) (3 / 4) ∧
      blend BlendFunction.COLOR_DODGE (1 / 2) (3 / 4) ≤ 1) ∧
    accumulate (1 / 3) ([textureEffectDemo] ++ Effect.fusable skipMaskEffect :: []) =
      accumulate (1 / 3) ([textureEffectDemo] ++ []) ∧
    fusedSource ([textureEffectDemo] ++ Effect.fusable skipMaskEffect :: []) =
      fusedSource [textureEffectDemo] ++ namespacedBody skipMaskEffect :: fusedSource [] :=
  blend_bounded_and_skip_excluded BlendFunction.COLOR_DODGE (1 / 2) (3 / 4)
    (by norm_num) (by norm_num) (by norm_num) (by norm_num)
    (1 / 3) [textureEffectDemo] [] skipMaskEffect rfl

/-- C3: the COLOR_DODGE formula is guarded against division by
`1 - contribution`: for every base channel in the unit interval and every
contribution at or above 1, it returns exactly 1. -/
theorem colorDodge_saturates (x y : ℚ)
    (hx0 : 0 ≤ x) (hx1 : x ≤ 1) (hy : 1 ≤ y) :
    blend BlendFunction.COLOR_DODGE x y = 1 := by
  simp [blend, hy]

/-- Concrete instance of the C3 theorem at contribution exactly 1. -/
theorem colorDodge_saturates_witness :
    blend BlendFunction.COLOR_DODGE (1 / 2) 1 = 1 :=
  colorDodge_saturates (1 / 2) 1 (by norm_num) (by norm_num) (by norm_num)

/-- C4: `resolve` fails with UnsupportedBlendFunction exactly outside the
closed 18-identifier set; inside it, it succeeds with a unique formula
selector; and `setBlendFunction` rejects out-of-set identifiers at setup
with the same error. -/
theorem resolve_closed_set (id : ℕ) (bm : BlendMode) :
    (18 ≤ id →
      resolve id = Except.error PipelineError.unsupportedBlendFunction ∧
      setBlendFunction bm id =
        Except.error PipelineError.unsupportedBlendFunction) ∧
    (id < 18 →
      ∃ f, resolve id = Except.ok f ∧
        ∀ g, resolve id = Except.ok g → g = f) := by
  have hlen : blendFunctionTable.length = 18 := by decide
  constructor
  · intro h
    have hnone : ofId id = none := by
      unfold ofId
      exact List.getElem?_eq_none (by omega)
    constructor
    · unfold resolve
      rw [hnone]
    · unfold setBlendFunction resolve
      rw [hnone]
  · intro h
    have hlt : id < blendFunctionTable.length := by omega
    have hsome : ofId id = some blendFunctionTable[id] := by
      unfold ofId
      exact List.getElem?_eq_getElem hlt
    refine ⟨blendFunctionTable[id], ?_, ?_⟩
    · unfold resolve
      rw [hsome]
    · intro g hg
      unfold resolve at hg
      rw [hsome] at hg
      exact (Except.ok.inj hg).symm

/-- Concrete instance of the C4 theorem: identifier 99 is rejected by
`resolve` and by `setBlendFunction`; identifier 6 resolves. -/
theorem resolve_closed_set_witness :
    resolve 99 = Except.error PipelineError.unsupportedBlendFunction ∧
    setBlendFunction ⟨6, 1⟩ 99 =
      Except.error PipelineError.unsupportedBlendFunction ∧
    resolve 6 = Except.ok BlendFunction.COLOR_DODGE :=
  ⟨((resolve_closed_set 99 ⟨6, 1⟩).1 (by norm_num)).1,
    ((resolve_closed_set 99 ⟨6, 1⟩).1 (by norm_num)).2, rfl⟩

/-- Setting the opacity uniform leaves an effect's static descriptor
untouched. -/
theorem staticDescriptor_setOpacity (e : Effect) (v : ℚ) :
    staticDescriptor (setOpacity e v) = staticDescriptor e := by
  cases e <;> rfl

/-- An opacity update preserves the static descriptors of the whole list. -/
theorem updateOpacityAt_map_static (l : List Effect) (i : ℕ) (v : ℚ) :
    (updateOpacityAt l i v).map staticDescriptor = l.map staticDescriptor := by
  induction l generalizing i with
  | nil => rfl
  | cons e rest ih =>
    cases i with
    | zero => simp [updateOpacityAt, staticDescriptor_setOpacity]
    | succ n => simp [updateOpacityAt, ih]

/-- Fusion reads only the static descriptors: lists with equal static
descriptors fuse to the same compiled program. -/
theorem fuse_eq_of_static (l₁ l₂ : List Effect)
    (h : l₁.map staticDescriptor = l₂.map staticDescriptor) :
    fuse l₁ = fuse l₂ := by
  have hs : l₁.map Effect.sourceChunks = l₂.map Effect.sourceChunks := by
    have hfst := congrArg (List.map Prod.fst) h
    simpa [List.map_map, Function.comp_def, staticDescriptor] using hfst
  have hi : l₁.map Effect.declaredInputs = l₂.map Effect.declaredInputs := by
    have hsnd := congrArg (List.map Prod.snd) h
    simpa [List.map_map, Function.comp_def, staticDescriptor] using hsnd
  unfold fuse fusedSource fusedInputs
  rw [hs, hi]

/-- An opacity update leaves every other list position untouched. -/
theorem updateOpacityAt_getElem_ne (l : List Effect) (i : ℕ) (v : ℚ)
    (j : ℕ) (hij : j ≠ i) : (updateOpacityAt l i v)[j]? = l[j]? := by
  induction l generalizing i j with
  | nil => rfl
  | cons e rest ih =>
    cases i with
    | zero =>
      cases j with
      | zero => exact absurd rfl hij
      | succ k => simp [updateOpacityAt]
    | succ n =>
      cases j with
      | zero => simp [updateOpacityAt]
      | succ k => simpa [updateOpacityAt] using ih n k (by omega)

/-- C5: mutating an effect's opacity uniform between frames never changes
the fused program: re-fusing the updated list yields the identical compiled
program (so the pass constructed from the original list keeps its program),
every other effect in the list is untouched, and, in general, fusion output
— hence recompilation — depends only on the static shader descriptors,
never on uniform values. -/
theorem opacity_update_preserves_program
    (effects : List Effect) (i : ℕ) (v : ℚ) (l₁ l₂ : List Effect)
    (hstatic : l₁.map staticDescriptor = l₂.map staticDescriptor) :
    fuse (updateOpacityAt effects i v) = fuse effects ∧
    (mkEffectPass effects).program = fuse effects ∧
    (∀ j, j ≠ i → (updateOpacityAt effects i v)[j]? = effects[j]?) ∧
    fuse l₁ = fuse l₂ :=
  ⟨fuse_eq_of_static _ _ (updateOpacityAt_map_static effects i v), rfl,
    fun j hj => updateOpacityAt_getElem_ne effects i v j hj,
    fuse_eq_of_static l₁ l₂ hstatic⟩

/-- The demo's effect list with the texture effect's opacity turned down. -/
def demoPassEffectsFaded : List Effect := updateOpacityAt demoPassEffects 1 (1 / 2)

/-- Concrete instance of the C5 theorem on the demo pass: fading the
texture effect's opacity between frames keeps the fused program identical
and leaves the SMAA effect untouched. -/
theorem opacity_update_preserves_program_witness :
    fuse (updateOpacityAt demoPassEffects 1 (1 / 2)) = fuse demoPassEffects ∧
    (updateOpacityAt demoPassEffects 1 (1 / 2))[0]? = demoPassEffects[0]? ∧
    fuse demoPassEffects = fuse demoPassEffectsFaded :=
  ⟨(opacity_update_preserves_program demoPassEffects 1 (1 / 2)
      demoPassEffects demoPassEffects rfl).1,
    (opacity_update_preserves_program demoPassEffects 1 (1 / 2)
      demoPassEffects demoPassEffects rfl).2.2.1 0 (by norm_num),
    (opacity_update_preserves_program demoPassEffects 1 (1 / 2)
      demoPassEffectsFaded demoPassEffects
      (updateOpacityAt_map_static demoPassEffects 1 (1 / 2)).symm).2.2.2.symm⟩

/-- C6: the accumulation fold applies blend steps in caller-declared list
order, so whenever the two effects' blend steps fail to commute at some
input, fusing them in the two orders yields programs whose accumulated
color differs at that input. -/
theorem fusion_order_sensitive (e₁ e₂ : Effect) (input : ℚ)
    (h : blendStep (blendStep input e₁) e₂ ≠ blendStep (blendStep input e₂) e₁) :
    accumulate input [e₁, e₂] ≠ accumulate input [e₂, e₁] := by
  simpa [accumulate] using h

/-- A SUBTRACT-blended effect contributing 1/5 at half opacity. -/
def subtractEffectA : Effect :=
  Effect.fusable
    ⟨"SubtractA", "contribution a", [BufferInput.color],
      BlendFunction.SUBTRACT, 1 / 2, 1 / 5⟩

/-- A SUBTRACT-blended effect contributing 4/5 at half opacity. -/
def subtractEffectB : Effect :=
  Effect.fusable
    ⟨"SubtractB", "contribution b", [BufferInput.color],
      BlendFunction.SUBTRACT, 1 / 2, 4 / 5⟩

/-- Concrete instance of the C6 theorem: two SUBTRACT effects folded over
the input 1/2 give different accumulated colors in the two orders. -/
theorem fusion_order_sensitive_witness :
    accumulate (1 / 2) [subtractEffectA, subtractEffectB] ≠
      accumulate (1 / 2) [subtractEffectB, subtractEffectA] :=
  fusion_order_sensitive subtractEffectA subtractEffectB (1 / 2)
    (by
      have hne : BlendFunction.SUBTRACT ≠ BlendFunction.SKIP := by decide
      norm_num [blendStep, blend, subtractEffectA, subtractEffectB, max_def, hne])

/-- C7: identity case of the three-stage antialiasing pipeline.  On a
uniform-color input image, edge detection at the demo's threshold 1/100
yields a zero edge mask at every pixel; blending-weight calculation on an
all-zero edge mask yields zero weights at every pixel; and neighborhood
blending under all-zero weights returns the original color unchanged. -/
theorem smaa_identity_on_uniform_input
    (img : Image) (c : ℚ) (x y : ℕ)
    (huni : ∀ a b, img a b = c)
    (edges : ℕ → ℕ → ℚ × ℚ) (lut : LookupTextures) (dist : ℕ)
    (hedges : ∀ a b, edges a b = (0, 0))
    (w : ℕ → ℕ → ℚ × ℚ × ℚ × ℚ)
    (hw : ∀ a b, w a b = (0, 0, 0, 0)) :
    edgeDetect img (1 / 100) x y = (0, 0) ∧
    blendingWeights edges lut dist x y = (0, 0, 0, 0) ∧
    neighborhoodBlend img w x y = img x y := by
  refine ⟨?_, ?_, ?_⟩
  · norm_num [edgeDetect, huni]
  · simp [blendingWeights, hedges]
  · simp [neighborhoodBlend, hw]

/-- A uniform half-gray image plane. -/
def uniformHalfImage : Image := fun _ _ => 1 / 2

/-- The all-zero edge mask. -/
def zeroEdgeMask : ℕ → ℕ → ℚ × ℚ := fun _ _ => (0, 0)

/-- The all-zero blending-weight texture. -/
def zeroWeights : ℕ → ℕ → ℚ × ℚ × ℚ × ℚ := fun _ _ => (0, 0, 0, 0)

/-- A concrete pair of lookup textures. -/
def flatLookup : LookupTextures := ⟨fun _ _ => 1, fun _ _ => 1⟩

/-- Concrete instance of the C7 theorem at pixel (0, 0) of a uniform
half-gray image. -/
theorem smaa_identity_on_uniform_input_witness :
    edgeDetect uniformHalfImage (1 / 100) 0 0 = (0, 0) ∧
    blendingWeights zeroEdgeMask flatLookup 16 0 0 = (0, 0, 0, 0) ∧
    neighborhoodBlend uniformHalfImage zeroWeights 0 0 = uniformHalfImage 0 0 :=
  smaa_identity_on_uniform_input uniformHalfImage (1 / 2) 0 0
    (fun _ _ => rfl) zeroEdgeMask flatLookup 16 (fun _ _ => rfl)
    zeroWeights (fun _ _ => rfl)

/-- C8: the search distance configured for the blending-weight stage is
monotonically non-decreasing along the preset escalation order
LOW, MEDIUM, HIGH, ULTRA. -/
theorem searchDistance_monotone (p₁ p₂ : SMAAPreset)
    (h : presetRank p₁ ≤ presetRank p₂) :
    searchDistance p₁ ≤ searchDistance p₂ := by
  cases p₁ <;> cases p₂ <;> revert h <;> decide

/-- Concrete instance of the C8 theorem across the full escalation. -/
theorem searchDistance_monotone_witness :
    searchDistance SMAAPreset.LOW ≤ searchDistance SMAAPreset.ULTRA :=
  searchDistance_monotone SMAAPreset.LOW SMAAPreset.ULTRA (by decide)

/-- C9: a failed asset load is reported per asset by the loading manager's
error log; an effect whose required texture is missing fails to construct
with MissingAssetError; and in the demo's pipeline a missing SMAA lookup
texture blocks only the SMAA effect while the texture effect still
constructs. -/
theorem missing_asset_blocks_only_its_effect
    (assets : Assets) (t : Texture) (url : String)
    (search area : Option Texture) (preset : SMAAPreset)
    (mode : EdgeDetectionMode)
    (hnone : search = none ∨ area = none)
    (hmiss : getAsset assets "smaa-search" = none)
    (hscr : getAsset assets "scratches-color" = some t) :
    onErrorLog url = "Failed to load " ++ url ∧
    mkSMAAEffect search area preset mode =
      Except.error PipelineError.missingAssetError ∧
    initPipelineEffects assets =
      [Except.error PipelineError.missingAssetError,
        Except.ok (Effect.fusable
          ⟨"TextureEffect", "sample " ++ t.url, [BufferInput.color],
            BlendFunction.COLOR_DODGE, 1, 0⟩)] := by
  refine ⟨rfl, ?_, ?_⟩
  · rcases hnone with h | h
    · subst h
      rfl
    · subst h
      cases search <;> rfl
  · simp [initPipelineEffects, hmiss, hscr, mkSMAAEffect, mkTextureEffect]

/-- An asset map missing the SMAA search lookup texture but holding the
scratches texture and the SMAA area texture. -/
def assetsMissingSearch : Assets :=
  [("scratches-color", ⟨"textures/scratches.jpg"⟩),
   ("smaa-area", ⟨"smaa-area-image"⟩)]

/-- Concrete instance of the C9 theorem on an asset map whose SMAA search
texture failed to load. -/
theorem missing_asset_blocks_only_its_effect_witness :
    onErrorLog "smaa-search-image" = "Failed to load " ++ "smaa-search-image" ∧
    mkSMAAEffect none (some ⟨"smaa-area-image"⟩) SMAAPreset.HIGH
        EdgeDetectionMode.DEPTH =
      Except.error PipelineError.missingAssetError ∧
    initPipelineEffects assetsMissingSearch =
      [Except.error PipelineError.missingAssetError,
        Except.ok (Effect.fusable
          ⟨"TextureEffect", "sample " ++ Texture.url ⟨"textures/scratches.jpg"⟩,
            [BufferInput.color], BlendFunction.COLOR_DODGE, 1, 0⟩)] :=
  missing_asset_blocks_only_its_effect assetsMissingSearch
    ⟨"textures/scratches.jpg"⟩ "smaa-search-image" none
    (some ⟨"smaa-area-image"⟩) SMAAPreset.HIGH EdgeDetectionMode.DEPTH
    (Or.inl rfl) rfl rfl

/-- C10: on an empty asset map, `load` initiates the Sponza scene, the
scratches texture and the two SMAA lookup textures and schedules its
promise to resolve exactly 250ms after the loading manager reports
completion, at which point all initiated keys are present; on a non-empty
asset map it resolves immediately, initiates nothing and leaves the asset
map unchanged. -/
theorem load_empty_starts_all_else_immediate (assets : Assets) :
    (assets = [] →
      load assets =
        { initiated := loadKeys, resolveDelayAfterLoad := some 250,
          assetsAtResolve := runLoaderCallbacks assets } ∧
      ∀ k, k ∈ loadKeys →
        ((getAsset (load assets).assetsAtResolve k).isSome = true)) ∧
    (assets ≠ [] →
      (load assets).initiated = [] ∧
      (load assets).resolveDelayAfterLoad = none ∧
      (load assets).assetsAtResolve = assets) := by
  constructor
  · intro h
    subst h
    exact ⟨rfl, by decide⟩
  · intro h
    have hlen : assets.length ≠ 0 := by
      simpa [List.length_eq_zero] using h
    unfold load
    rw [if_neg hlen]
    exact ⟨rfl, rfl, rfl⟩

/-- An already-populated asset map. -/
def preloadedAssets : Assets := [(sponzaTag, ⟨"sponza-scene"⟩)]

/-- Concrete instance of the C10 theorem: a first call on the empty map
schedules the 250ms-delayed resolution with all loads initiated; a second
call on a populated map is an immediate no-op. -/
theorem load_empty_starts_all_else_immediate_witness :
    load [] =
      { initiated := loadKeys, resolveDelayAfterLoad := some 250,
        assetsAtResolve := runLoaderCallbacks [] } ∧
    (getAsset (load []).assetsAtResolve "smaa-area").isSome = true ∧
    (load preloadedAssets).initiated = [] ∧
    (load preloadedAssets).resolveDelayAfterLoad = none ∧
    (load preloadedAssets).assetsAtResolve = preloadedAssets :=
  ⟨((load_empty_starts_all_else_immediate []).1 rfl).1,
    ((load_empty_starts_all_else_immediate []).1 rfl).2 "smaa-area"
      (by decide),
    ((load_empty_starts_all_else_immediate preloadedAssets).2 (by decide)).1,
    ((load_empty_starts_all_else_immediate preloadedAssets).2 (by decide)).2.1,
    ((load_empty_starts_all_else_immediate preloadedAssets).2 (by decide)).2.2⟩

end Postprocessing
